import Mathlib

/-!
Verification of the decarbonization-suite calculation engine.

Shallow embedding of the calculation core of `src/app.py`:
* the scenario cashflow / NPV engine (`calculate_npv`, `calculate_npv_detailed`),
* the marginal abatement cost computation,
* the before/after emissions accounting model (`calculate_emission`,
  `enforce_specific_rules`, the baseline CO₂-reduction formula and the
  per-year actuals tracking formulas),
* the baseline-vs-BAU-vs-target reduction model of the fuel/energy calculator.

Python floats are modelled as rationals (`ℚ`); Python `dict` records as Lean
structures; fallible arithmetic (float division, which raises
`ZeroDivisionError` on a zero divisor) as `Option`-valued computation.
-/

/-- Capital source of an investment scenario: the `capex_type` radio field,
`"Own Investment"` or `"Loan"` (src/app.py line 2234). -/
inductive CapexType where
  | ownInvestment
  | loan
deriving DecidableEq, Repr

/-- One investment scenario ("option") of the MACC tab, as accumulated by
`option_fields_tab2` (src/app.py lines 2216-2377).  Integer-valued year
fields (`min_value` 0 resp. 1 in the UI) are `ℕ`; money and rate fields
are `ℚ`. -/
structure InvOption where
  capex_type : CapexType
  capex_own : ℚ
  capex_loan_principal : ℚ
  capex_loan_interest : ℚ
  capex_loan_period : ℕ
  reinvestment : Bool
  reinvestment_year : ℕ
  reinvestment_amount : ℚ
  opex_regular_costs : ℚ
  inflation_rate : ℚ
  opex_fuel_energy_cost : ℚ
  fuel_energy_inflation : ℚ
  salvage_value : ℚ
  year_of_salvage : ℕ
  residual_value : ℚ
  annual_benefit : ℚ
  benefit_duration : ℕ
  benefit_decline_rate : ℚ
  lifetime : ℕ
  discount_rate : ℚ
  co2_reduction : ℚ
  emission_tracking_period : ℕ
deriving DecidableEq, Repr

/-- `investment = opt['capex_own'] if opt['capex_type'] == "Own Investment"
else opt['capex_loan_principal']` (src/app.py line 2129). -/
def investment (opt : InvOption) : ℚ :=
  if opt.capex_type = CapexType.ownInvestment then opt.capex_own
  else opt.capex_loan_principal

/-- Annual benefit with decline for year `year ≥ 1`
(src/app.py lines 2136-2139). -/
def benefit_at (opt : InvOption) (year : ℕ) : ℚ :=
  if year ≤ opt.benefit_duration then
    opt.annual_benefit * ((1 - opt.benefit_decline_rate / 100) ^ (year - 1))
  else 0

/-- Regular operating cost with inflation for year `year ≥ 1`
(src/app.py line 2142). -/
def opex_regular_at (opt : InvOption) (year : ℕ) : ℚ :=
  opt.opex_regular_costs * ((1 + opt.inflation_rate / 100) ^ (year - 1))

/-- Fuel/energy operating cost with inflation for year `year ≥ 1`
(src/app.py line 2143). -/
def opex_fuel_at (opt : InvOption) (year : ℕ) : ℚ :=
  opt.opex_fuel_energy_cost * ((1 + opt.fuel_energy_inflation / 100) ^ (year - 1))

/-- `net_cashflow = annual_benefit - opex_regular - opex_fuel`
(src/app.py line 2145). -/
def net_cashflow_at (opt : InvOption) (year : ℕ) : ℚ :=
  benefit_at opt year - opex_regular_at opt year - opex_fuel_at opt year

/-- `cashflows[i] += v`, in-bounds Python list item assignment modelled with
`List.set` (src/app.py lines 2150 and 2153; both call sites are in bounds). -/
def listAddAt (l : List ℚ) (i : ℕ) (v : ℚ) : List ℚ :=
  l.set i (l.getD i 0 + v)

/-- The cashflow series of `calculate_npv_detailed` before the salvage and
residual adjustments: `cashflows = [-investment]` followed by the loop
`for year in range(1, lifetime + 1)` (src/app.py lines 2132-2146). -/
def base_cashflows (opt : InvOption) : List ℚ :=
  -investment opt :: (List.range' 1 opt.lifetime).map (net_cashflow_at opt)

/-- The full cashflow series of `calculate_npv_detailed`: base series, then
salvage added at `year_of_salvage` when `salvage_value > 0` and
`year_of_salvage <= lifetime`, then residual added to the last entry
(src/app.py lines 2132-2153). -/
def build_cashflows (opt : InvOption) : List ℚ :=
  let cfs := base_cashflows opt
  let cfs2 :=
    if 0 < opt.salvage_value ∧ opt.year_of_salvage ≤ opt.lifetime then
      listAddAt cfs opt.year_of_salvage opt.salvage_value
    else cfs
  listAddAt cfs2 (cfs2.length - 1) opt.residual_value

/-- The NPV primitive: `sum([cf / (1 + rate)**t for t, cf in
enumerate(cashflows)])` (src/app.py lines 450-452; the same expression is
inlined at line 2157). -/
def calculate_npv (rate : ℚ) (cashflows : List ℚ) : ℚ :=
  ((cashflows.enum).map (fun tc => tc.2 / (1 + rate) ^ tc.1)).sum

/-- NPV of a detailed scenario: `discount_rate = opt['discount_rate'] / 100`
then the NPV sum over the built cashflows (src/app.py lines 2127-2159). -/
def calculate_npv_detailed (opt : InvOption) : ℚ :=
  calculate_npv (opt.discount_rate / 100) (build_cashflows opt)

/-- Python float division, which raises `ZeroDivisionError` when the divisor
is zero: modelled as `none` on a zero divisor. -/
def divOpt (a b : ℚ) : Option ℚ :=
  if b = 0 then none else some (a / b)

/-- The terms of the NPV comprehension evaluated left to right with fallible
division: `none` as soon as one division raises. -/
def npv_terms_checked (rate : ℚ) : List (ℕ × ℚ) → Option (List ℚ)
  | [] => some []
  | tc :: rest =>
    match divOpt tc.2 ((1 + rate) ^ tc.1), npv_terms_checked rate rest with
    | some q, some qs => some (q :: qs)
    | _, _ => none

/-- The NPV primitive with Python division semantics made explicit: returns
`none` exactly when the Python code would raise `ZeroDivisionError`. -/
def calculate_npv_checked (rate : ℚ) (cashflows : List ℚ) : Option ℚ :=
  (npv_terms_checked rate cashflows.enum).map List.sum

/-- `calculate_npv_detailed` with fallible division made explicit. -/
def calculate_npv_detailed_checked (opt : InvOption) : Option ℚ :=
  calculate_npv_checked (opt.discount_rate / 100) (build_cashflows opt)

/-- Result bundle of the MACC calculation (src/app.py lines 2161-2186). -/
structure MacResult where
  npv_before : ℚ
  npv_after : ℚ
  net_npv : ℚ
  annual_co2_diff : ℚ
  tracking_years : ℕ
  total_co2_diff : ℚ
  mac : ℚ
deriving DecidableEq, Repr

/-- The marginal abatement cost computation (src/app.py lines 2161-2186):
`diff_npv = npv1 - npv2`, `annual_diff_co2 = co2₁ - co2₂`,
`tracking_period = max(etp₁, etp₂, 1)`, `diff_co2 = annual × tracking`,
`mac = diff_npv / diff_co2 if diff_co2 != 0 else 0`. -/
def marginal_abatement_cost (o1 o2 : InvOption) : MacResult :=
  let npv1 := calculate_npv_detailed o1
  let npv2 := calculate_npv_detailed o2
  let diff_npv := npv1 - npv2
  let annual_diff_co2 := o1.co2_reduction - o2.co2_reduction
  let tracking_period := max (max o1.emission_tracking_period o2.emission_tracking_period) 1
  let diff_co2 := annual_diff_co2 * (tracking_period : ℚ)
  { npv_before := npv1
    npv_after := npv2
    net_npv := diff_npv
    annual_co2_diff := annual_diff_co2
    tracking_years := tracking_period
    total_co2_diff := diff_co2
    mac := if diff_co2 ≠ 0 then diff_npv / diff_co2 else 0 }

/-- A scenario with every numeric field zero (the UI's blank defaults),
owned capital, lifetime 1 and tracking period 1. -/
def zeroOption : InvOption where
  capex_type := CapexType.ownInvestment
  capex_own := 0
  capex_loan_principal := 0
  capex_loan_interest := 0
  capex_loan_period := 0
  reinvestment := false
  reinvestment_year := 0
  reinvestment_amount := 0
  opex_regular_costs := 0
  inflation_rate := 0
  opex_fuel_energy_cost := 0
  fuel_energy_inflation := 0
  salvage_value := 0
  year_of_salvage := 0
  residual_value := 0
  annual_benefit := 0
  benefit_duration := 0
  benefit_decline_rate := 0
  lifetime := 1
  discount_rate := 0
  co2_reduction := 0
  emission_tracking_period := 1

/-- Scenario A of the spec's MAC sign-convention test: investment 1000,
CO₂ reduction 100/yr, lifetime 1, discount 0%, no benefit/opex. -/
def scenarioA : InvOption :=
  { zeroOption with capex_own := 1000, co2_reduction := 100 }

/-- Scenario B of the spec's MAC sign-convention test: investment 500,
CO₂ reduction 50/yr, lifetime 1, discount 0%, no benefit/opex. -/
def scenarioB : InvOption :=
  { zeroOption with capex_own := 500, co2_reduction := 50 }

/-- Witness scenario for the cashflow-series claim: lifetime 2, benefit 10
for 1 year declining 50%, opex 2 at 10% inflation, fuel opex 3, salvage 5 in
year 1, residual 7, owned capital 100. -/
def optC2 : InvOption :=
  { zeroOption with
    capex_own := 100
    lifetime := 2
    annual_benefit := 10
    benefit_duration := 1
    benefit_decline_rate := 50
    opex_regular_costs := 2
    inflation_rate := 10
    opex_fuel_energy_cost := 3
    salvage_value := 5
    year_of_salvage := 1
    residual_value := 7 }

/-- A lifetime-0 scenario: owned capital 100, residual value 50, everything
else zero. -/
def c9Option : InvOption :=
  { zeroOption with
    capex_own := 100
    residual_value := 50
    lifetime := 0 }


/-- `_safe_float` (src/app.py lines 3277-3281): numeric coercion of a raw
input value.  Python string parsing is modelled as `Option ℚ`: `none` for a
blank, missing or non-numeric value (the empty-string and `except` paths),
`some q` when `float(...)` succeeds with value `q`; the function then
returns the parsed value or 0.0. -/
def _safe_float : Option ℚ → ℚ
  | none => 0
  | some q => q

/-- One material row of a CO2 project (canonical numeric fields of the
input/output row dicts, src/app.py lines 3335-3343). -/
structure MaterialRow where
  ef : ℚ
  abs_before : ℚ
  abs_after : ℚ
  spec_before : ℚ
  spec_after : ℚ
deriving DecidableEq, Repr, Inhabited

/-- `calculate_emission(section_data, section_name)` (src/app.py lines
4147-4171): accumulates before/after emission totals over the rows; in
absolute mode `abs × ef`, in specific mode `(AMP × spec) × ef` with output
rows pinned to spec = 1.0. -/
def calculate_emission (is_absolute : Bool) (amp_before amp_after : ℚ)
    (is_output_section : Bool) (rows : List MaterialRow) : ℚ × ℚ :=
  rows.foldl
    (fun totals row =>
      if is_absolute then
        (totals.1 + row.abs_before * row.ef, totals.2 + row.abs_after * row.ef)
      else
        (totals.1 + (amp_before * (if is_output_section then 1 else row.spec_before)) * row.ef,
         totals.2 + (amp_after * (if is_output_section then 1 else row.spec_after)) * row.ef))
    (0, 0)

/-- A CO2 project snapshot: accounting convention, input/output rows and the
AMP pair (src/app.py lines 3289-3310). -/
structure CO2Project where
  is_absolute : Bool
  input_data : List MaterialRow
  output_data : List MaterialRow
  amp_before : ℚ
  amp_after : ℚ
deriving DecidableEq, Repr

/-- The baseline result bundle `baseline_values` (src/app.py lines
4220-4229). -/
structure BaselineValues where
  input_before : ℚ
  input_after : ℚ
  output_before : ℚ
  output_after : ℚ
  net_before : ℚ
  net_after : ℚ
  sp_net_before : ℚ
  sp_net_after : ℚ
  co2_reduction : ℚ
deriving DecidableEq, Repr

/-- The baseline emission computation (src/app.py lines 4143-4229):
AMP defaults to 1.0 in absolute mode; input/output totals via
`calculate_emission`; nets; primary output quantities from the first output
row (1.0 in specific mode, 0.0 when there is no output row); specific nets
with a zero-denominator guard; CO₂ reduction
`(sp_net_before - sp_net_after) × reference`. -/
def compute_baseline (p : CO2Project) : BaselineValues :=
  let amp_b := if p.is_absolute then 1 else p.amp_before
  let amp_a := if p.is_absolute then 1 else p.amp_after
  let inputs := calculate_emission p.is_absolute amp_b amp_a false p.input_data
  let outputs := calculate_emission p.is_absolute amp_b amp_a true p.output_data
  let net_before := inputs.1 - outputs.1
  let net_after := inputs.2 - outputs.2
  let primary_output_before :=
    match p.output_data with
    | [] => 0
    | r :: _ => if p.is_absolute then r.abs_before else 1
  let primary_output_after :=
    match p.output_data with
    | [] => 0
    | r :: _ => if p.is_absolute then r.abs_after else 1
  let sp_net_before :=
    if p.is_absolute then
      (if primary_output_before ≠ 0 then net_before / primary_output_before else 0)
    else (if amp_b ≠ 0 then net_before / amp_b else 0)
  let sp_net_after :=
    if p.is_absolute then
      (if primary_output_after ≠ 0 then net_after / primary_output_after else 0)
    else (if amp_a ≠ 0 then net_after / amp_a else 0)
  let co2_reduction :=
    if p.is_absolute then (sp_net_before - sp_net_after) * primary_output_after
    else (sp_net_before - sp_net_after) * amp_a
  { input_before := inputs.1
    input_after := inputs.2
    output_before := outputs.1
    output_after := outputs.2
    net_before := net_before
    net_after := net_after
    sp_net_before := sp_net_before
    sp_net_after := sp_net_after
    co2_reduction := co2_reduction }

/-- `enforce_specific_rules(data, calculation_method, data_type)`
(src/app.py lines 3367-3374): under the specific convention every output
row's `abs_before`, `spec_before` and `spec_after` are pinned to 1.0. -/
def enforce_specific_rules (is_specific_method is_output_type : Bool)
    (rows : List MaterialRow) : List MaterialRow :=
  if is_specific_method ∧ is_output_type then
    rows.map (fun r => { r with abs_before := 1, spec_before := 1, spec_after := 1 })
  else rows

/-- The row dict produced by `render_emission_table` for an output row under
the specific convention (src/app.py lines 3944-3968): `abs_before`,
`spec_before` and `spec_after` are pinned to 1.0. -/
def render_output_row_specific (r : MaterialRow) : MaterialRow :=
  { r with abs_before := 1, spec_before := 1, spec_after := 1 }

/-- Output rows as persisted by Save: `enforce_specific_rules` is applied to
`project['output_data']` before `json.dumps` (src/app.py lines 3622-3623 and
3649). -/
def saved_output_rows (rows : List MaterialRow) : List MaterialRow :=
  enforce_specific_rules true true rows

/-- Output rows after Load: the stored rows are key-normalized
(`normalize_data_row`, identity on this typed row) and passed through
`enforce_specific_rules` (src/app.py lines 3556-3561). -/
def loaded_output_rows (stored : List MaterialRow) : List MaterialRow :=
  enforce_specific_rules true true stored

/-- The specific-mode output pinning invariant:
`spec_before = spec_after = 1.0` and `abs_before = 1.0`. -/
def pinned_output_row (r : MaterialRow) : Prop :=
  r.spec_before = 1 ∧ r.spec_after = 1 ∧ r.abs_before = 1

instance (r : MaterialRow) : Decidable (pinned_output_row r) := by
  unfold pinned_output_row
  infer_instance

/-- `calculate_tracking_emissions(input_values, output_values, amp_value)`
(src/app.py lines 4800-4822): per-year actual emissions; in specific mode
input values scale with AMP and output values are fixed at 1. -/
def calculate_tracking_emissions (is_absolute : Bool)
    (input_values output_values input_ef_list output_ef_list : List ℚ)
    (amp_value : ℚ) : ℚ × ℚ × ℚ :=
  let total_input_emission :=
    if is_absolute then ((input_values.zip input_ef_list).map (fun v => v.1 * v.2)).sum
    else ((input_values.zip input_ef_list).map (fun v => (amp_value * v.1) * v.2)).sum
  let total_output_emission :=
    if is_absolute then ((output_values.zip output_ef_list).map (fun v => v.1 * v.2)).sum
    else ((output_values.zip output_ef_list).map (fun v => (amp_value * 1) * v.2)).sum
  (total_input_emission, total_output_emission,
    total_input_emission - total_output_emission)

/-- Per-year `Sp.Net` (src/app.py lines 4829-4835): net emission divided by
the first output actual (absolute) or the AMP actual (specific), 0.0 on a
zero denominator. -/
def year_sp_net (is_absolute : Bool) (net_emission : ℚ)
    (output_values : List ℚ) (amp_value : ℚ) : ℚ :=
  if is_absolute then
    (if output_values.headD 0 ≠ 0 then net_emission / output_values.headD 0 else 0)
  else (if amp_value ≠ 0 then net_emission / amp_value else 0)

/-- Per-year CO₂ reduction (src/app.py lines 4837-4843): the baseline
formula reused with the original `sp_net_before` held fixed and this year's
actual reference quantity. -/
def year_co2_reduction (is_absolute : Bool)
    (baseline_sp_net_before net_emission : ℚ) (output_values : List ℚ)
    (amp_value : ℚ) : ℚ :=
  if is_absolute then
    (baseline_sp_net_before - year_sp_net is_absolute net_emission output_values amp_value)
      * output_values.headD 0
  else
    (baseline_sp_net_before - year_sp_net is_absolute net_emission output_values amp_value)
      * amp_value

/-- `production_growth_factor = target_production / previous_year_production
if previous_year_production != 0 else 1.0` (src/app.py line 760). -/
def production_growth_factor (target_production previous_year_production : ℚ) : ℚ :=
  if previous_year_production ≠ 0 then target_production / previous_year_production
  else 1

/-- Per-scope target emissions
`baseline_val * (1 - reduction_pct / 100)` (src/app.py lines 739-743). -/
def target_emission_scope (baseline_val reduction_pct : ℚ) : ℚ :=
  baseline_val * (1 - reduction_pct / 100)

/-- Per-scope BAU emissions
`previous_emissions * production_growth_factor` (src/app.py line 762). -/
def bau_emission_scope (previous_val growth_factor : ℚ) : ℚ :=
  previous_val * growth_factor

/-- Per-scope reduction vs business-as-usual
`bau_emissions - target_emissions` (src/app.py line 769). -/
def reduction_quantity_scope
    (previous_val baseline_val reduction_pct target_production previous_year_production : ℚ) : ℚ :=
  bau_emission_scope previous_val
      (production_growth_factor target_production previous_year_production)
    - target_emission_scope baseline_val reduction_pct

/-- `safe_specific(emission, production)` (src/app.py lines 748-749):
intensity with a zero-production guard. -/
def safe_specific (emission production : ℚ) : ℚ :=
  if production ≠ 0 then emission / production else 0

/-- Scenario whose NPV evaluation divides by zero: discount rate -100%. -/
def c7BadOption : InvOption :=
  { zeroOption with discount_rate := -100, capex_own := 100 }

/-- Concrete material rows for the emission-model witnesses. -/
def materialRowsEx : List MaterialRow :=
  [{ ef := 2, abs_before := 7, abs_after := 3, spec_before := 4, spec_after := 6 },
   { ef := 5, abs_before := 1, abs_after := 9, spec_before := 8, spec_after := 2 }]

/- ### Helper lemmas for the cashflow engine -/

theorem enumFrom_map_sum (f : ℕ → ℚ → ℚ) :
    ∀ (l : List ℚ) (n : ℕ),
      ((List.enumFrom n l).map (fun p => f p.1 p.2)).sum
        = ∑ i in Finset.range l.length, f (n + i) (l.getD i 0) := by
  intro l
  induction l with
  | nil => intro n; simp
  | cons a t ih =>
    intro n
    rw [List.enumFrom_cons]
    simp only [List.map_cons, List.sum_cons, List.length_cons]
    rw [Finset.sum_range_succ']
    simp only [List.getD_cons_zero, List.getD_cons_succ]
    rw [ih (n + 1)]
    have harg : ∀ i : ℕ, n + (i + 1) = n + 1 + i := by omega
    rw [add_comm]
    congr 1
    refine Finset.sum_congr rfl ?_
    intro i _
    rw [harg i]

theorem enum_map_sum (f : ℕ → ℚ → ℚ) (l : List ℚ) :
    ((l.enum).map (fun p => f p.1 p.2)).sum
      = ∑ i in Finset.range l.length, f i (l.getD i 0) := by
  rw [List.enum_eq_enumFrom, enumFrom_map_sum]
  simp

theorem calculate_npv_eq_sum (rate : ℚ) (l : List ℚ) :
    calculate_npv rate l
      = ∑ t in Finset.range l.length, l.getD t 0 / (1 + rate) ^ t := by
  unfold calculate_npv
  exact enum_map_sum (fun t cf => cf / (1 + rate) ^ t) l

theorem sum_range_getD (l : List ℚ) :
    ∑ i in Finset.range l.length, l.getD i 0 = l.sum := by
  induction l with
  | nil => simp
  | cons a t ih =>
    rw [List.length_cons, Finset.sum_range_succ', List.sum_cons]
    simp only [List.getD_cons_succ, List.getD_cons_zero]
    rw [ih, add_comm]

theorem calculate_npv_zero_rate (l : List ℚ) : calculate_npv 0 l = l.sum := by
  rw [calculate_npv_eq_sum]
  simp only [add_zero, one_pow, div_one]
  exact sum_range_getD l

theorem length_listAddAt (l : List ℚ) (i : ℕ) (v : ℚ) :
    (listAddAt l i v).length = l.length := by
  simp [listAddAt]

theorem getD_listAddAt :
    ∀ (l : List ℚ) (i t : ℕ) (v : ℚ),
      (listAddAt l i v).getD t 0
        = l.getD t 0 + if t = i ∧ i < l.length then v else 0 := by
  intro l
  induction l with
  | nil => intro i t v; simp [listAddAt]
  | cons a rest ih =>
    intro i t v
    cases i with
    | zero =>
      cases t with
      | zero => simp [listAddAt]
      | succ t => simp [listAddAt]
    | succ i =>
      have hstep : listAddAt (a :: rest) (i + 1) v = a :: listAddAt rest i v := by
        simp [listAddAt]
      rw [hstep]
      cases t with
      | zero => simp
      | succ t =>
        simp only [List.getD_cons_succ, List.length_cons]
        rw [ih i t v]
        have hiff : (t = i ∧ i < rest.length)
            ↔ (t + 1 = i + 1 ∧ i + 1 < rest.length + 1) := by omega
        by_cases h : t = i ∧ i < rest.length
        · rw [if_pos h, if_pos (hiff.mp h)]
        · rw [if_neg h, if_neg (fun hc => h (hiff.mpr hc))]

theorem length_base_cashflows (opt : InvOption) :
    (base_cashflows opt).length = opt.lifetime + 1 := by
  simp [base_cashflows]

theorem getD_base_cashflows_zero (opt : InvOption) :
    (base_cashflows opt).getD 0 0 = -investment opt := rfl

theorem getD_base_cashflows_succ (opt : InvOption) (t : ℕ)
    (h : t < opt.lifetime) :
    (base_cashflows opt).getD (t + 1) 0 = net_cashflow_at opt (t + 1) := by
  unfold base_cashflows
  rw [List.getD_cons_succ]
  have hlen : t < ((List.range' 1 opt.lifetime).map (net_cashflow_at opt)).length := by
    simpa using h
  rw [List.getD_eq_getElem _ _ hlen]
  rw [List.getElem_map]
  rw [List.getElem_range']
  simp [Nat.add_comm 1 t]

theorem length_build_cashflows (opt : InvOption) :
    (build_cashflows opt).length = opt.lifetime + 1 := by
  unfold build_cashflows
  by_cases h : 0 < opt.salvage_value ∧ opt.year_of_salvage ≤ opt.lifetime
  · simp [h, length_listAddAt, length_base_cashflows]
  · simp [h, length_listAddAt, length_base_cashflows]

/-- Full characterization of each entry of the built cashflow series. -/
theorem getD_build_cashflows (opt : InvOption) (t : ℕ) :
    (build_cashflows opt).getD t 0
      = (base_cashflows opt).getD t 0
        + (if t = opt.year_of_salvage ∧ 0 < opt.salvage_value ∧
              opt.year_of_salvage ≤ opt.lifetime then opt.salvage_value else 0)
        + (if t = opt.lifetime then opt.residual_value else 0) := by
  simp only [build_cashflows]
  by_cases h : 0 < opt.salvage_value ∧ opt.year_of_salvage ≤ opt.lifetime
  · rw [if_pos h]
    rw [getD_listAddAt, getD_listAddAt]
    rw [length_listAddAt, length_base_cashflows]
    have hsalv : (opt.year_of_salvage < opt.lifetime + 1) := by omega
    have hres : (opt.lifetime + 1 - 1 = opt.lifetime) := by omega
    rw [hres]
    by_cases h1 : t = opt.year_of_salvage <;> by_cases h2 : t = opt.lifetime <;>
      simp [h1, h2, h.1, h.2, hsalv, Nat.lt_succ_self]
  · rw [if_neg h]
    rw [getD_listAddAt, length_base_cashflows]
    have hres : (opt.lifetime + 1 - 1 = opt.lifetime) := by omega
    rw [hres]
    by_cases h2 : t = opt.lifetime <;>
      simp [h2, h, Nat.lt_succ_self]

theorem npv_terms_checked_of_ne (rate : ℚ) (hne : 1 + rate ≠ 0) :
    ∀ l : List (ℕ × ℚ),
      npv_terms_checked rate l
        = some (l.map (fun tc => tc.2 / (1 + rate) ^ tc.1)) := by
  intro l
  induction l with
  | nil => rfl
  | cons tc rest ih =>
    have hdvd : (1 + rate) ^ tc.1 ≠ 0 := pow_ne_zero _ hne
    simp only [npv_terms_checked, divOpt, if_neg hdvd, ih, List.map_cons]

theorem calculate_npv_checked_of_ne (rate : ℚ) (hne : 1 + rate ≠ 0)
    (cashflows : List ℚ) :
    calculate_npv_checked rate cashflows = some (calculate_npv rate cashflows) := by
  simp only [calculate_npv_checked, npv_terms_checked_of_ne rate hne]
  rfl

theorem calculate_npv_checked_singleton (rate v : ℚ) :
    calculate_npv_checked rate [v] = some (calculate_npv rate [v]) := by
  simp [calculate_npv_checked, calculate_npv, npv_terms_checked, divOpt]

/-- C1: for every cashflow series and discount-rate percentage, the NPV
primitive equals `Σ_t series[t] / (1 + r_pct/100)^t`; at 0% it is the plain
sum of the series; for `[-1000, 300, 300, 300, 300]` at 0% it is exactly
200. -/
theorem claim_C1_npv_formula (series : List ℚ) (r_pct : ℚ) :
    calculate_npv (r_pct / 100) series
        = ∑ t in Finset.range series.length, series.getD t 0 / (1 + r_pct / 100) ^ t
    ∧ calculate_npv ((0 : ℚ) / 100) series = series.sum
    ∧ calculate_npv ((0 : ℚ) / 100) [-1000, 300, 300, 300, 300] = 200 := by
  refine ⟨calculate_npv_eq_sum _ _, ?_, ?_⟩
  · have h0 : ((0 : ℚ) / 100) = 0 := by norm_num
    rw [h0, calculate_npv_zero_rate]
  · norm_num [calculate_npv, List.enum, List.enumFrom]

/-- C2: for lifetime `N ≥ 1` the built cashflow series has `N + 1`
entries; entry 0 is minus the investment (owned amount or loan principal),
plus salvage when `year_of_salvage = 0` qualifies; entry `t` for
`1 ≤ t ≤ N` is declining benefit minus the two inflated opex streams, plus
salvage exactly when `t = year_of_salvage ≤ N` and `salvage_value > 0`,
plus the residual value exactly at the final index `N` (unconditionally,
even when zero). -/
theorem claim_C2_cashflow_series (opt : InvOption) (h : 1 ≤ opt.lifetime) :
    (build_cashflows opt).length = opt.lifetime + 1
    ∧ (build_cashflows opt).getD 0 0
        = -(if opt.capex_type = CapexType.ownInvestment then opt.capex_own
            else opt.capex_loan_principal)
          + (if 0 = opt.year_of_salvage ∧ 0 < opt.salvage_value ∧
                opt.year_of_salvage ≤ opt.lifetime then opt.salvage_value else 0)
    ∧ (∀ t, 1 ≤ t → t ≤ opt.lifetime →
        (build_cashflows opt).getD t 0
          = ((if t ≤ opt.benefit_duration then
                opt.annual_benefit * ((1 - opt.benefit_decline_rate / 100) ^ (t - 1))
              else 0)
              - opt.opex_regular_costs * ((1 + opt.inflation_rate / 100) ^ (t - 1))
              - opt.opex_fuel_energy_cost * ((1 + opt.fuel_energy_inflation / 100) ^ (t - 1)))
            + (if t = opt.year_of_salvage ∧ 0 < opt.salvage_value ∧
                  opt.year_of_salvage ≤ opt.lifetime then opt.salvage_value else 0)
            + (if t = opt.lifetime then opt.residual_value else 0)) := by
  refine ⟨length_build_cashflows opt, ?_, ?_⟩
  · rw [getD_build_cashflows, getD_base_cashflows_zero]
    have h0 : ¬(0 = opt.lifetime) := by omega
    rw [if_neg h0, add_zero]
    unfold investment
    rfl
  · intro t h1 ht
    rw [getD_build_cashflows]
    obtain ⟨s, rfl⟩ : ∃ s, t = s + 1 := ⟨t - 1, by omega⟩
    rw [getD_base_cashflows_succ opt s (by omega)]
    unfold net_cashflow_at benefit_at opex_regular_at opex_fuel_at
    rfl

theorem claim_C2_cashflow_series_witness :
    1 ≤ optC2.lifetime ∧
    ((build_cashflows optC2).length = optC2.lifetime + 1
    ∧ (build_cashflows optC2).getD 0 0
        = -(if optC2.capex_type = CapexType.ownInvestment then optC2.capex_own
            else optC2.capex_loan_principal)
          + (if 0 = optC2.year_of_salvage ∧ 0 < optC2.salvage_value ∧
                optC2.year_of_salvage ≤ optC2.lifetime then optC2.salvage_value else 0)
    ∧ (∀ t, 1 ≤ t → t ≤ optC2.lifetime →
        (build_cashflows optC2).getD t 0
          = ((if t ≤ optC2.benefit_duration then
                optC2.annual_benefit * ((1 - optC2.benefit_decline_rate / 100) ^ (t - 1))
              else 0)
              - optC2.opex_regular_costs * ((1 + optC2.inflation_rate / 100) ^ (t - 1))
              - optC2.opex_fuel_energy_cost * ((1 + optC2.fuel_energy_inflation / 100) ^ (t - 1)))
            + (if t = optC2.year_of_salvage ∧ 0 < optC2.salvage_value ∧
                  optC2.year_of_salvage ≤ optC2.lifetime then optC2.salvage_value else 0)
            + (if t = optC2.lifetime then optC2.residual_value else 0))) :=
  ⟨by decide, claim_C2_cashflow_series optC2 (by decide)⟩

/-- C3: the MAC computation returns `net_npv = npv_before - npv_after`,
`annual_co2_diff = co2₁ - co2₂`, `tracking_years = max(etp₁, etp₂, 1)`,
`total_co2_diff = annual × tracking`, and `mac = net_npv / total_co2_diff`
guarded to 0 on a zero denominator; on the spec's example pair the result
is `net_npv = -500`, `total_co2_diff = 50`, `mac = -10`. -/
theorem claim_C3_mac_engine (o1 o2 : InvOption) :
    (marginal_abatement_cost o1 o2).npv_before = calculate_npv_detailed o1
    ∧ (marginal_abatement_cost o1 o2).npv_after = calculate_npv_detailed o2
    ∧ (marginal_abatement_cost o1 o2).net_npv
        = calculate_npv_detailed o1 - calculate_npv_detailed o2
    ∧ (marginal_abatement_cost o1 o2).annual_co2_diff
        = o1.co2_reduction - o2.co2_reduction
    ∧ (marginal_abatement_cost o1 o2).tracking_years
        = max (max o1.emission_tracking_period o2.emission_tracking_period) 1
    ∧ (marginal_abatement_cost o1 o2).total_co2_diff
        = (marginal_abatement_cost o1 o2).annual_co2_diff
            * ((marginal_abatement_cost o1 o2).tracking_years : ℚ)
    ∧ (marginal_abatement_cost o1 o2).mac
        = (if (marginal_abatement_cost o1 o2).total_co2_diff = 0 then 0
           else (marginal_abatement_cost o1 o2).net_npv
                  / (marginal_abatement_cost o1 o2).total_co2_diff)
    ∧ (marginal_abatement_cost scenarioA scenarioB).net_npv = -500
    ∧ (marginal_abatement_cost scenarioA scenarioB).total_co2_diff = 50
    ∧ (marginal_abatement_cost scenarioA scenarioB).mac = -10 := by
  refine ⟨rfl, rfl, rfl, rfl, rfl, rfl, ?_, ?_, ?_, ?_⟩
  · simp only [marginal_abatement_cost, ne_eq, ite_not]
  · norm_num [marginal_abatement_cost, calculate_npv_detailed, build_cashflows,
      base_cashflows, calculate_npv, listAddAt, investment, net_cashflow_at,
      benefit_at, opex_regular_at, opex_fuel_at, scenarioA, scenarioB,
      zeroOption, List.range', List.enum, List.enumFrom]
  · norm_num [marginal_abatement_cost, scenarioA, scenarioB, zeroOption]
  · norm_num [marginal_abatement_cost, calculate_npv_detailed, build_cashflows,
      base_cashflows, calculate_npv, listAddAt, investment, net_cashflow_at,
      benefit_at, opex_regular_at, opex_fuel_at, scenarioA, scenarioB,
      zeroOption, List.range', List.enum, List.enumFrom]

/-- C9 counterexample: with lifetime 0, owned capital 100 and residual
value 50 the single-entry series is `[-50]`, not `[-investment] = [-100]`:
the residual value is still added to the t = 0 entry. -/
theorem claim_C9_counterexample :
    investment c9Option = 100 ∧ c9Option.lifetime = 0
    ∧ build_cashflows c9Option = [-50]
    ∧ build_cashflows c9Option ≠ [-investment c9Option] := by
  have hb : build_cashflows c9Option = [-50] := by
    norm_num [build_cashflows, base_cashflows, listAddAt, investment,
      net_cashflow_at, c9Option, zeroOption, List.range']
  refine ⟨rfl, rfl, hb, ?_⟩
  rw [hb]
  intro hc
  have h50 : (-50 : ℚ) = -investment c9Option := List.head_eq_of_cons_eq hc
  norm_num [investment, c9Option, zeroOption] at h50

/-- C9 amended: for a scenario with lifetime 0 the engine does not
crash; the cashflow series degenerates to the single t = 0 entry
`-investment + residual_value`, plus `salvage_value` when
`salvage_value > 0` and `year_of_salvage = 0`. -/
theorem claim_C9_amended (opt : InvOption) (h : opt.lifetime = 0) :
    build_cashflows opt
      = [-investment opt
          + (if 0 < opt.salvage_value ∧ opt.year_of_salvage = 0
             then opt.salvage_value else 0)
          + opt.residual_value]
    ∧ calculate_npv_detailed_checked opt = some (calculate_npv_detailed opt) := by
  have hbase : base_cashflows opt = [-investment opt] := by
    simp [base_cashflows, h]
  have hbuild : build_cashflows opt
      = [-investment opt
          + (if 0 < opt.salvage_value ∧ opt.year_of_salvage = 0
             then opt.salvage_value else 0)
          + opt.residual_value] := by
    simp only [build_cashflows, hbase, h]
    by_cases hs : 0 < opt.salvage_value ∧ opt.year_of_salvage ≤ 0
    · have hys : opt.year_of_salvage = 0 := by omega
      rw [if_pos hs, if_pos ⟨hs.1, hys⟩]
      simp [listAddAt, hys]
    · have hs2 : ¬(0 < opt.salvage_value ∧ opt.year_of_salvage = 0) := by
        intro hc; exact hs ⟨hc.1, by omega⟩
      rw [if_neg hs, if_neg hs2]
      simp [listAddAt]
  refine ⟨hbuild, ?_⟩
  rw [calculate_npv_detailed_checked, calculate_npv_detailed, hbuild]
  exact calculate_npv_checked_singleton _ _

theorem claim_C9_amended_witness :
    c9Option.lifetime = 0
    ∧ (build_cashflows c9Option
        = [-investment c9Option
            + (if 0 < c9Option.salvage_value ∧ c9Option.year_of_salvage = 0
               then c9Option.salvage_value else 0)
            + c9Option.residual_value]
       ∧ calculate_npv_detailed_checked c9Option
          = some (calculate_npv_detailed c9Option)) :=
  ⟨rfl, claim_C9_amended c9Option rfl⟩

/-- C10: the NPV engine (and hence the MAC result) reads none of the
reinvestment fields nor the loan interest rate / repayment period: two
scenarios differing only in those fields yield equal NPVs and an equal MAC
bundle. -/
theorem claim_C10_npv_reinvest_loan_invariance (o1 o2 : InvOption) (b1 : Bool)
    (ry1 : ℕ) (ra1 li1 : ℚ) (lp1 : ℕ) (b2 : Bool) (ry2 : ℕ) (ra2 li2 : ℚ)
    (lp2 : ℕ) :
    calculate_npv_detailed
        { o1 with
          reinvestment := b1
          reinvestment_year := ry1
          reinvestment_amount := ra1
          capex_loan_interest := li1
          capex_loan_period := lp1 }
      = calculate_npv_detailed o1
    ∧ marginal_abatement_cost
        { o1 with
          reinvestment := b1
          reinvestment_year := ry1
          reinvestment_amount := ra1
          capex_loan_interest := li1
          capex_loan_period := lp1 }
        { o2 with
          reinvestment := b2
          reinvestment_year := ry2
          reinvestment_amount := ra2
          capex_loan_interest := li2
          capex_loan_period := lp2 }
      = marginal_abatement_cost o1 o2 :=
  ⟨rfl, rfl⟩

/-- C5 counterexample: with previous-year production 0 the code
returns a production growth factor of 1.0, not the claimed 0. -/
theorem claim_C5_counterexample :
    production_growth_factor 100 0 = 1 ∧ production_growth_factor 100 0 ≠ 0 := by
  constructor <;> norm_num [production_growth_factor]

/-- C5 amended: the growth factor is `target / previous`, falling back
to 1 (not 0) on zero previous production; per scope
`BAU = previous × growth`, `target = baseline × (1 - pct/100)` and
`avoided = BAU - target` (reduction vs business-as-usual); on the spec's
example (baseline = previous = 1000, growth 1.5, 20% reduction) the
avoided quantity is 700. -/
theorem claim_C5_amended (tp pp pe be pct : ℚ) :
    production_growth_factor tp pp = (if pp = 0 then 1 else tp / pp)
    ∧ bau_emission_scope pe (production_growth_factor tp pp)
        = pe * production_growth_factor tp pp
    ∧ target_emission_scope be pct = be * (1 - pct / 100)
    ∧ reduction_quantity_scope pe be pct tp pp
        = bau_emission_scope pe (production_growth_factor tp pp)
          - target_emission_scope be pct
    ∧ reduction_quantity_scope 1000 1000 20 1500 1000 = 700 := by
  refine ⟨?_, rfl, rfl, rfl, ?_⟩
  · by_cases hp : pp = 0 <;> simp [production_growth_factor, hp]
  · norm_num [reduction_quantity_scope, bau_emission_scope,
      target_emission_scope, production_growth_factor]

/-- C7 counterexample: the NPV engine is not exception-free on every
input: at discount rate -100% the term divisor `(1 + r)^t` is zero for
`t ≥ 1` and Python raises `ZeroDivisionError` (modelled as `none`). -/
theorem claim_C7_counterexample :
    calculate_npv_detailed_checked c7BadOption = none := by
  norm_num [calculate_npv_detailed_checked, calculate_npv_checked,
    npv_terms_checked, divOpt, build_cashflows, base_cashflows, listAddAt,
    investment, net_cashflow_at, benefit_at, opex_regular_at, opex_fuel_at,
    c7BadOption, zeroOption, List.range', List.enum, List.enumFrom]

/-- C7 amended: blank/non-numeric/missing numeric input coerces to 0.0
via `_safe_float`, an empty row collection yields an all-zero emission
result, and the NPV engine returns a value on every scenario whose discount
rate is not -100%; only the unguarded NPV divisor can raise. -/
theorem claim_C7_amended (opt : InvOption) (h : opt.discount_rate ≠ -100) :
    (∀ x : Option ℚ, _safe_float x = x.getD 0)
    ∧ (∀ (b o : Bool) (ab aa : ℚ), calculate_emission b ab aa o [] = (0, 0))
    ∧ calculate_npv_detailed_checked opt = some (calculate_npv_detailed opt) := by
  refine ⟨?_, ?_, ?_⟩
  · intro x; cases x <;> rfl
  · intro b o ab aa; rfl
  · have hne : (1 : ℚ) + opt.discount_rate / 100 ≠ 0 := by
      intro hc
      apply h
      have h1 : opt.discount_rate / 100 = -1 := by linarith
      have h2 : opt.discount_rate = -1 * 100 := by
        field_simp at h1
        linarith
      linarith
    exact calculate_npv_checked_of_ne _ hne _

theorem claim_C7_amended_witness :
    zeroOption.discount_rate ≠ -100
    ∧ ((∀ x : Option ℚ, _safe_float x = x.getD 0)
       ∧ (∀ (b o : Bool) (ab aa : ℚ), calculate_emission b ab aa o [] = (0, 0))
       ∧ calculate_npv_detailed_checked zeroOption
          = some (calculate_npv_detailed zeroOption)) :=
  ⟨by norm_num [zeroOption], claim_C7_amended zeroOption (by norm_num [zeroOption])⟩

theorem foldl_pair_sum {α : Type} (f g : α → ℚ) :
    ∀ (rows : List α) (x y : ℚ),
      rows.foldl (fun t s => (t.1 + f s, t.2 + g s)) (x, y)
        = (x + (rows.map f).sum, y + (rows.map g).sum) := by
  intro rows
  induction rows with
  | nil => intro x y; simp
  | cons r rest ih =>
    intro x y
    rw [List.foldl_cons, ih, List.map_cons, List.map_cons, List.sum_cons,
      List.sum_cons]
    simp only [Prod.mk.injEq]
    constructor <;> ring

/-- C4: the CO₂ reduction of a project is
`(sp_net_before - sp_net_after) × reference_quantity` with the reference
quantity being the primary output's after quantity (absolute mode) or
`AMP_after` (specific mode); each specific net divides the net emission by
its denominator with a 0.0 guard; and the per-year tracking reduction is
the same formula with the baseline `sp_net_before` held fixed and that
year's actual reference quantity — the baseline reduction itself is the
year formula evaluated at the baseline's own after data. -/
theorem claim_C4_co2_reduction_single_formula (p : CO2Project)
    (is_abs : Bool) (b_spnb net amp : ℚ) (output_values : List ℚ) :
    (compute_baseline p).co2_reduction
        = ((compute_baseline p).sp_net_before - (compute_baseline p).sp_net_after)
          * (if p.is_absolute then (p.output_data.map (fun r => r.abs_after)).headD 0
             else p.amp_after)
    ∧ (compute_baseline p).sp_net_before
        = (if (if p.is_absolute then (p.output_data.map (fun r => r.abs_before)).headD 0
               else p.amp_before) = 0 then 0
           else (compute_baseline p).net_before
                / (if p.is_absolute then (p.output_data.map (fun r => r.abs_before)).headD 0
                   else p.amp_before))
    ∧ (compute_baseline p).sp_net_after
        = (if (if p.is_absolute then (p.output_data.map (fun r => r.abs_after)).headD 0
               else p.amp_after) = 0 then 0
           else (compute_baseline p).net_after
                / (if p.is_absolute then (p.output_data.map (fun r => r.abs_after)).headD 0
                   else p.amp_after))
    ∧ year_co2_reduction is_abs b_spnb net output_values amp
        = (b_spnb - year_sp_net is_abs net output_values amp)
          * (if is_abs then output_values.headD 0 else amp)
    ∧ (compute_baseline p).co2_reduction
        = year_co2_reduction p.is_absolute (compute_baseline p).sp_net_before
            (compute_baseline p).net_after (p.output_data.map (fun r => r.abs_after))
            p.amp_after := by
  obtain ⟨abs, idata, odata, ampb, ampa⟩ := p
  refine ⟨?_, ?_, ?_, ?_, ?_⟩
  · cases abs <;> cases odata <;> simp [compute_baseline]
  · cases abs <;> cases odata <;> simp [compute_baseline]
  · cases abs <;> cases odata <;> simp [compute_baseline]
  · cases is_abs <;> simp [year_co2_reduction]
  · cases abs <;> cases odata <;>
      simp [compute_baseline, year_co2_reduction, year_sp_net]

/-- C6: under the specific convention every output row is pinned to
`spec_before = spec_after = 1.0` and `abs_before = 1.0`: the rows persisted
by Save and the rows produced by Load are pinned whatever was stored, the
rendered/edited row dict is pinned, and the emission computation forces the
pin regardless of stored values, so every output row contributes
`AMP_period × 1.0 × ef` — computing on raw rows equals computing on the
pinned (saved) rows. -/
theorem claim_C6_specific_output_pinning (rows stored : List MaterialRow)
    (r : MaterialRow) (amp_b amp_a : ℚ) :
    (∀ s ∈ saved_output_rows rows, pinned_output_row s)
    ∧ (∀ s ∈ loaded_output_rows stored, pinned_output_row s)
    ∧ pinned_output_row (render_output_row_specific r)
    ∧ calculate_emission false amp_b amp_a true rows
        = ((rows.map (fun s => amp_b * 1 * s.ef)).sum,
           (rows.map (fun s => amp_a * 1 * s.ef)).sum)
    ∧ calculate_emission false amp_b amp_a true rows
        = calculate_emission false amp_b amp_a true (saved_output_rows rows) := by
  have hclosed : ∀ (l : List MaterialRow) (b a : ℚ),
      calculate_emission false b a true l
        = ((l.map (fun s => b * 1 * s.ef)).sum, (l.map (fun s => a * 1 * s.ef)).sum) := by
    intro l b a
    have hfold := foldl_pair_sum (fun s : MaterialRow => b * s.ef)
      (fun s : MaterialRow => a * s.ef) l 0 0
    simpa [calculate_emission] using hfold
  refine ⟨?_, ?_, ⟨rfl, rfl, rfl⟩, hclosed rows amp_b amp_a, ?_⟩
  · intro s hs
    simp only [saved_output_rows, enforce_specific_rules, and_self, if_true,
      List.mem_map] at hs
    obtain ⟨t, _, rfl⟩ := hs
    exact ⟨rfl, rfl, rfl⟩
  · intro s hs
    simp only [loaded_output_rows, enforce_specific_rules, and_self, if_true,
      List.mem_map] at hs
    obtain ⟨t, _, rfl⟩ := hs
    exact ⟨rfl, rfl, rfl⟩
  · rw [hclosed rows amp_b amp_a, hclosed (saved_output_rows rows) amp_b amp_a]
    simp only [saved_output_rows, enforce_specific_rules, and_self, if_true,
      List.map_map]
    rfl

theorem claim_C6_specific_output_pinning_witness :
    (∀ s ∈ saved_output_rows materialRowsEx, pinned_output_row s)
    ∧ (∀ s ∈ loaded_output_rows materialRowsEx, pinned_output_row s)
    ∧ pinned_output_row (render_output_row_specific
        { ef := 2, abs_before := 7, abs_after := 3, spec_before := 4, spec_after := 6 })
    ∧ calculate_emission false 5 7 true materialRowsEx
        = ((materialRowsEx.map (fun s => 5 * 1 * s.ef)).sum,
           (materialRowsEx.map (fun s => 7 * 1 * s.ef)).sum)
    ∧ calculate_emission false 5 7 true materialRowsEx
        = calculate_emission false 5 7 true (saved_output_rows materialRowsEx) :=
  claim_C6_specific_output_pinning materialRowsEx materialRowsEx
    { ef := 2, abs_before := 7, abs_after := 3, spec_before := 4, spec_after := 6 } 5 7
